import Mathlib

/-!
Verification of the parcel persistence layer (`parcel.go`).

The store is a façade over one SQL table `parcel` with columns
`number` (integer primary key, auto-assigned), `client`, `status`,
`address`, `created_at`.  Each operation issues exactly one SQL
statement, so we embed the store as pure transformers on an explicit
table state.  The storage engine is assumed healthy (spec §1 treats it
as an external collaborator providing atomically applied single
statements); the error values the Go layer can itself produce are kept
as an explicit error type so that the "not found" / "no rows" taxonomy
of spec §7 is observable.
-/

set_option autoImplicit false

/-- Modelled from the spec: the `Parcel` entity (its declaring Go file
is not under `src/`; fields and their types follow spec §3 and the
`row.Scan(&p.Number, &p.Client, &p.Status, &p.Address, &p.CreatedAt)`
column order in `parcel.go`). -/
structure Parcel where
  number : Int
  client : Int
  status : String
  address : String
  createdAt : String
deriving Repr, DecidableEq

/-- Errors observable from the layer: `noRows` models `sql.ErrNoRows`
(no row matched), `storage msg` models any other backend failure. -/
inductive DBError where
  | noRows : DBError
  | storage (msg : String) : DBError
deriving Repr, DecidableEq

/-- The backing table: the sequence of rows in storage order, and the
next identifier the engine will auto-assign (spec §6: `number` is an
auto-assigned integer primary key). -/
structure ParcelTable where
  rows : List Parcel
  nextId : Int
deriving Repr, DecidableEq

/-- All stored identifiers are pairwise distinct (`number` is the
primary key, spec §3). -/
def numbersUnique (t : ParcelTable) : Prop :=
  t.rows.Pairwise (fun a b => a.number ≠ b.number)

/-- The auto-assign counter is ahead of every stored identifier, as
the engine guarantees for an auto-assigned primary key. -/
def numbersBelowNext (t : ParcelTable) : Prop :=
  ∀ r ∈ t.rows, r.number < t.nextId

namespace ParcelStore

/-- `Add`: `INSERT INTO parcel (client, status, address, created_at)
VALUES (...)` followed by `LastInsertId`.  The engine assigns the new
`number`; the parcel's own `Number` field is not sent.  Returns the
assigned identifier and the new table. -/
def add (t : ParcelTable) (p : Parcel) : Int × ParcelTable :=
  let row : Parcel :=
    { number := t.nextId, client := p.client, status := p.status,
      address := p.address, createdAt := p.createdAt }
  (t.nextId, { rows := t.rows ++ [row], nextId := t.nextId + 1 })

/-- `Get`: `SELECT * FROM parcel WHERE number = @number` via
`QueryRow`/`Scan`; `Scan` yields `sql.ErrNoRows` when no row matched. -/
def get (t : ParcelTable) (number : Int) : Except DBError Parcel :=
  match t.rows.find? (fun r => r.number == number) with
  | some r => .ok r
  | none => .error .noRows

/-- `GetByClient`: `SELECT * FROM parcel WHERE client = @client`,
scanning every returned row in storage order. -/
def getByClient (t : ParcelTable) (client : Int) : Except DBError (List Parcel) :=
  .ok (t.rows.filter (fun r => r.client == client))

/-- `SetStatus`: `UPDATE parcel SET status = @status WHERE number =
@number`.  The `Exec` result is discarded (`_, err :=`), so the call
reports success whether or not any row matched. -/
def setStatus (t : ParcelTable) (number : Int) (status : String) :
    Except DBError Unit × ParcelTable :=
  (.ok (),
    { t with rows := t.rows.map (fun r =>
        if r.number == number then { r with status := status } else r) })

/-- `SetAddress`: `UPDATE parcel SET address = @address WHERE number =
@number AND status = @status` with `@status` bound to `"registered"`.
The `Exec` result is discarded (`_, err :=`), so the call reports
success whether or not any row matched. -/
def setAddress (t : ParcelTable) (number : Int) (address : String) :
    Except DBError Unit × ParcelTable :=
  (.ok (),
    { t with rows := t.rows.map (fun r =>
        if r.number == number && r.status == "registered"
        then { r with address := address } else r) })

/-- `Delete`: `DELETE FROM parcel WHERE number = @number AND status =
@status` with `@status` bound to `"registered"`.  The `Exec` result is
discarded, so the call reports success whether or not any row matched. -/
def delete (t : ParcelTable) (number : Int) : Except DBError Unit × ParcelTable :=
  (.ok (),
    { t with rows := t.rows.filter (fun r =>
        !(r.number == number && r.status == "registered")) })

end ParcelStore

/-! ## Helper lemmas about list scans -/

theorem filter_self_idem {α : Type} (p : α → Bool) (l : List α) :
    (l.filter p).filter p = l.filter p := by
  induction l with
  | nil => rfl
  | cons a t ih => cases h : p a <;> simp [List.filter_cons, h, ih]

theorem find?_append_last {α : Type} (p : α → Bool) (l : List α) (x : α)
    (h : ∀ y ∈ l, p y = false) (hx : p x = true) :
    (l ++ [x]).find? p = some x := by
  rw [List.find?_append]
  have h1 : l.find? p = none := List.find?_eq_none.mpr (fun y hy => by simp [h y hy])
  rw [h1, List.find?_cons_of_pos _ hx]
  rfl

theorem eq_of_mem_of_unique {l : List Parcel}
    (h : l.Pairwise (fun a b => a.number ≠ b.number)) {a b : Parcel}
    (ha : a ∈ l) (hb : b ∈ l) (hn : a.number = b.number) : a = b := by
  by_contra hne
  have hS : Symmetric (fun a b : Parcel => a.number ≠ b.number) :=
    fun x y hxy h2 => hxy h2.symm
  exact List.Pairwise.forall hS h ha hb hne hn

/-! ## Claim theorems -/

/-- C1: the claim says `SetAddress` reports a caller-visible NoRowsAffected
failure when the statement matches zero rows.  The code discards the
`Exec` result, so on a table whose only row has the requested number but
status `sent` the call matches zero rows, leaves the table unchanged, and
still returns success — contradicting the repository's own test
`TestSetAddress`, which requires `sql.ErrNoRows` there. -/
theorem setAddress_silent_on_gated_row :
    (ParcelStore.setAddress ⟨[⟨1, 7, "sent", "addr", "2024-01-01"⟩], 2⟩ 1 "new").1
        = Except.ok ()
      ∧ (ParcelStore.setAddress ⟨[⟨1, 7, "sent", "addr", "2024-01-01"⟩], 2⟩ 1 "new").2
        = ⟨[⟨1, 7, "sent", "addr", "2024-01-01"⟩], 2⟩ := by
  constructor <;> rfl

/-- C4: if `Add(p)` returns identifier `n`, then `Get(n)` succeeds and
returns `p` with its `Number` field replaced by `n` and all other fields
unchanged. -/
theorem get_add_roundtrip (t : ParcelTable) (p : Parcel) (h : numbersBelowNext t) :
    ParcelStore.get (ParcelStore.add t p).2 (ParcelStore.add t p).1 =
      Except.ok { p with number := (ParcelStore.add t p).1 } := by
  unfold ParcelStore.get ParcelStore.add
  rw [find?_append_last]
  · intro y hy
    have := h y hy
    simp [Int.ne_of_lt this]
  · simp

theorem get_add_roundtrip_witness :
    ParcelStore.get (ParcelStore.add ⟨[], 1⟩ ⟨0, 1000, "registered", "test", "2024-01-01"⟩).2
        (ParcelStore.add ⟨[], 1⟩ ⟨0, 1000, "registered", "test", "2024-01-01"⟩).1 =
      Except.ok { (⟨0, 1000, "registered", "test", "2024-01-01"⟩ : Parcel) with
        number := (ParcelStore.add ⟨[], 1⟩ ⟨0, 1000, "registered", "test", "2024-01-01"⟩).1 } :=
  get_add_roundtrip ⟨[], 1⟩ ⟨0, 1000, "registered", "test", "2024-01-01"⟩
    (by simp [numbersBelowNext])

/-- C5: when no stored row has the requested identifier, `SetStatus`
modifies nothing (zero rows affected) and still returns success: the
code never inspects `RowsAffected`, so no "not found" is signaled. -/
theorem setStatus_missing_id_reports_success (t : ParcelTable) (n : Int) (s : String)
    (h : ∀ r ∈ t.rows, r.number ≠ n) :
    (ParcelStore.setStatus t n s).1 = Except.ok ()
      ∧ (ParcelStore.setStatus t n s).2 = t := by
  refine ⟨rfl, ?_⟩
  have hm : t.rows.map (fun r => if r.number == n then { r with status := s } else r)
      = t.rows := by
    conv_rhs => rw [← List.map_id t.rows]
    exact List.map_congr_left (fun a ha => by simp [h a ha])
  have h2 : (ParcelStore.setStatus t n s).2 =
      ⟨t.rows.map (fun r => if r.number == n then { r with status := s } else r), t.nextId⟩ :=
    rfl
  rw [h2, hm]

theorem setStatus_missing_id_reports_success_witness :
    (ParcelStore.setStatus ⟨[⟨1, 7, "registered", "a", "d"⟩], 2⟩ 5 "sent").1 = Except.ok ()
      ∧ (ParcelStore.setStatus ⟨[⟨1, 7, "registered", "a", "d"⟩], 2⟩ 5 "sent").2
        = ⟨[⟨1, 7, "registered", "a", "d"⟩], 2⟩ :=
  setStatus_missing_id_reports_success ⟨[⟨1, 7, "registered", "a", "d"⟩], 2⟩ 5 "sent"
    (by simp)

/-- C6: `Get` on an identifier with no matching row returns the `noRows`
error ("not found"), and that error is distinguishable from every other
storage failure value. -/
theorem get_missing_id_not_found (t : ParcelTable) (n : Int)
    (h : ∀ r ∈ t.rows, r.number ≠ n) :
    ParcelStore.get t n = Except.error DBError.noRows
      ∧ ∀ m, DBError.noRows ≠ DBError.storage m := by
  constructor
  · unfold ParcelStore.get
    have hf : t.rows.find? (fun r => r.number == n) = none :=
      List.find?_eq_none.mpr (fun x hx => by simp [h x hx])
    rw [hf]
  · intro m hm
    cases hm

theorem get_missing_id_not_found_witness :
    ParcelStore.get ⟨[⟨1, 7, "registered", "a", "d"⟩], 2⟩ 5 = Except.error DBError.noRows
      ∧ ∀ m, DBError.noRows ≠ DBError.storage m :=
  get_missing_id_not_found ⟨[⟨1, 7, "registered", "a", "d"⟩], 2⟩ 5 (by simp)

/-- C10: `Delete` is idempotent: deleting the same identifier twice
leaves the table exactly as one deletion does, and the second call (a
filter matching zero rows) also returns success. -/
theorem delete_idempotent (t : ParcelTable) (n : Int) :
    ParcelStore.delete (ParcelStore.delete t n).2 n = ParcelStore.delete t n := by
  simp [ParcelStore.delete, filter_self_idem]

theorem find?_number_map (u : Parcel → Parcel) (hu : ∀ r, (u r).number = r.number)
    (n : Int) (l : List Parcel) :
    (l.map u).find? (fun r => r.number == n) =
      (l.find? (fun r => r.number == n)).map u := by
  induction l with
  | nil => rfl
  | cons a t ih =>
    by_cases h : a.number = n
    · have h1 : ((u a).number == n) = true := by simp [hu a, h]
      have h2 : (a.number == n) = true := by simp [h]
      rw [List.map_cons,
        List.find?_cons_of_pos (p := fun r : Parcel => r.number == n) _ h1,
        List.find?_cons_of_pos (p := fun r : Parcel => r.number == n) _ h2]
      rfl
    · have h1 : ¬((u a).number == n) = true := by simp [hu a, h]
      have h2 : ¬(a.number == n) = true := by simp [h]
      rw [List.map_cons,
        List.find?_cons_of_neg (p := fun r : Parcel => r.number == n) _ h1,
        List.find?_cons_of_neg (p := fun r : Parcel => r.number == n) _ h2, ih]

theorem find?_filter_of_unique (l : List Parcel) (q : Parcel → Bool) (id : Int)
    (r : Parcel) (hp : l.Pairwise (fun a b => a.number ≠ b.number))
    (hr : r ∈ l) (hn : r.number = id) (hq : q r = true) :
    (l.filter q).find? (fun x => x.number == id) = some r := by
  induction l with
  | nil => cases hr
  | cons a t ih =>
    rw [List.pairwise_cons] at hp
    rcases List.mem_cons.mp hr with h | hrt
    · subst h
      rw [List.filter_cons, if_pos hq, List.find?_cons_of_pos]
      simp [hn]
    · have hna : a.number ≠ id := by
        rw [← hn]
        exact hp.1 r hrt
      have hA : ¬(a.number == id) = true := by simp [hna]
      rw [List.filter_cons]
      by_cases hqa : q a = true
      · rw [if_pos hqa,
          List.find?_cons_of_neg (p := fun x : Parcel => x.number == id) _ hA]
        exact ih hp.2 hrt
      · rw [if_neg hqa]
        exact ih hp.2 hrt

/-- C2: the `SetAddress` statement rewrites, row by row, exactly those
rows whose identifier matches and whose persisted status is
`registered` — the compound predicate of the single UPDATE.  Every row
at position `i` is either overwritten in its `address` field (when the
predicate holds) or left exactly as it was (when it fails, e.g. status
`sent` or `delivered`). -/
theorem setAddress_updates_row_iff_registered (t : ParcelTable) (n : Int) (a : String)
    (i : Nat) (r : Parcel) (h : t.rows[i]? = some r) :
    (ParcelStore.setAddress t n a).2.rows[i]? =
      some (if r.number = n ∧ r.status = "registered"
            then { r with address := a } else r) := by
  have h2 : (ParcelStore.setAddress t n a).2.rows =
      t.rows.map (fun x =>
        if x.number == n && x.status == "registered"
        then { x with address := a } else x) := rfl
  rw [h2, List.getElem?_map, h]
  by_cases h3 : r.number = n
  · by_cases h4 : r.status = "registered"
    · simp [h3, h4]
    · simp [h3, h4]
  · simp [h3]

theorem setAddress_updates_row_iff_registered_witness :
    (ParcelStore.setAddress ⟨[⟨1, 7, "sent", "a", "d"⟩], 2⟩ 1 "new").2.rows[0]? =
      some (if (1 : Int) = 1 ∧ "sent" = "registered"
            then { (⟨1, 7, "sent", "a", "d"⟩ : Parcel) with address := "new" }
            else ⟨1, 7, "sent", "a", "d"⟩) :=
  setAddress_updates_row_iff_registered ⟨[⟨1, 7, "sent", "a", "d"⟩], 2⟩ 1 "new" 0
    ⟨1, 7, "sent", "a", "d"⟩ rfl

/-- C3: `Delete` removes a stored row exactly when its status is
`registered`: afterwards `Get` reports not-found for a `registered`
row, while a row with any other status (e.g. `sent` or `delivered`)
stays present and is returned unchanged by `Get`. -/
theorem delete_removes_iff_registered (t : ParcelTable) (id : Int) (r : Parcel)
    (hu : numbersUnique t) (hr : r ∈ t.rows) (hn : r.number = id) :
    (ParcelStore.delete t id).1 = Except.ok ()
      ∧ (r.status = "registered" →
          ParcelStore.get (ParcelStore.delete t id).2 id = Except.error DBError.noRows)
      ∧ (r.status ≠ "registered" →
          ParcelStore.get (ParcelStore.delete t id).2 id = Except.ok r) := by
  have hrows : (ParcelStore.delete t id).2.rows =
      t.rows.filter (fun x => !(x.number == id && x.status == "registered")) := rfl
  refine ⟨rfl, ?_, ?_⟩
  · intro hst
    unfold ParcelStore.get
    rw [hrows]
    have hf : (t.rows.filter
        (fun x => !(x.number == id && x.status == "registered"))).find?
        (fun x => x.number == id) = none := by
      refine List.find?_eq_none.mpr ?_
      intro x hx
      rcases List.mem_filter.mp hx with ⟨hxm, hxk⟩
      intro hxid
      have hxid2 : x.number = id := by simpa using hxid
      have hxr : x = r := eq_of_mem_of_unique hu hxm hr (hxid2.trans hn.symm)
      subst hxr
      simp [hxid2, hst] at hxk
    rw [hf]
  · intro hst
    unfold ParcelStore.get
    rw [hrows]
    have hq : (!(r.number == id && r.status == "registered")) = true := by
      simp [hst]
    rw [find?_filter_of_unique t.rows _ id r hu hr hn hq]

theorem delete_removes_iff_registered_witness :
    (ParcelStore.delete ⟨[⟨1, 7, "registered", "a", "d"⟩], 2⟩ 1).1 = Except.ok ()
      ∧ ParcelStore.get (ParcelStore.delete ⟨[⟨1, 7, "registered", "a", "d"⟩], 2⟩ 1).2 1
        = Except.error DBError.noRows := by
  have h := delete_removes_iff_registered ⟨[⟨1, 7, "registered", "a", "d"⟩], 2⟩ 1
    ⟨1, 7, "registered", "a", "d"⟩ (by simp [numbersUnique]) (by simp) rfl
  exact ⟨h.1, h.2.1 rfl⟩

/-- C7: `GetByClient` succeeds and returns exactly the stored rows
whose `client` field equals the requested client: every returned row
has that client, every stored row with that client appears, the count
equals the number of such stored rows, and zero matches yields the
empty sequence rather than an error. -/
theorem getByClient_exact_client_set (t : ParcelTable) (c : Int) :
    ∃ l, ParcelStore.getByClient t c = Except.ok l
      ∧ (∀ r ∈ l, r.client = c)
      ∧ (∀ r ∈ t.rows, r.client = c → r ∈ l)
      ∧ l.length = t.rows.countP (fun r => r.client == c)
      ∧ ((∀ r ∈ t.rows, r.client ≠ c) → l = []) := by
  refine ⟨t.rows.filter (fun r => r.client == c), rfl, ?_, ?_, ?_, ?_⟩
  · intro r hr
    have := (List.mem_filter.mp hr).2
    simpa using this
  · intro r hr hc
    exact List.mem_filter.mpr ⟨hr, by simp [hc]⟩
  · rw [List.countP_eq_length_filter]
  · intro h
    exact List.filter_eq_nil_iff.mpr (fun a ha => by simp [h a ha])

/-- C8: for an identifier whose row exists, `SetStatus` succeeds for an
arbitrary string (no validation), and a subsequent `Get` returns that
row with its `status` field equal to the new string. -/
theorem setStatus_then_get_status (t : ParcelTable) (id : Int) (s : String) (r : Parcel)
    (h : t.rows.find? (fun x => x.number == id) = some r) :
    (ParcelStore.setStatus t id s).1 = Except.ok ()
      ∧ ParcelStore.get (ParcelStore.setStatus t id s).2 id
        = Except.ok { r with status := s } := by
  refine ⟨rfl, ?_⟩
  have hrows : (ParcelStore.setStatus t id s).2.rows =
      t.rows.map (fun x => if x.number == id then { x with status := s } else x) := rfl
  have hu : ∀ x : Parcel,
      ((if x.number == id then { x with status := s } else x) : Parcel).number
        = x.number := by
    intro x
    by_cases hc : (x.number == id) = true <;> simp [hc]
  unfold ParcelStore.get
  rw [hrows, find?_number_map _ hu id t.rows, h]
  have hp : r.number = id := by
    have h2 := List.find?_some h
    simpa using h2
  simp [hp]

theorem setStatus_then_get_status_witness :
    (ParcelStore.setStatus ⟨[⟨1, 7, "registered", "a", "d"⟩], 2⟩ 1 "weird").1
        = Except.ok ()
      ∧ ParcelStore.get
          (ParcelStore.setStatus ⟨[⟨1, 7, "registered", "a", "d"⟩], 2⟩ 1 "weird").2 1
        = Except.ok { (⟨1, 7, "registered", "a", "d"⟩ : Parcel) with status := "weird" } :=
  setStatus_then_get_status ⟨[⟨1, 7, "registered", "a", "d"⟩], 2⟩ 1 "weird"
    ⟨1, 7, "registered", "a", "d"⟩ rfl

/-- C9: `SetStatus` touches only the `status` column of the matching
row: at every position the stored row keeps its `number`, `client`,
`address` and `createdAt` fields, a row whose identifier differs from
the argument is unchanged entirely, and the auto-assign counter is not
moved. -/
theorem setStatus_frame (t : ParcelTable) (n : Int) (s : String)
    (i : Nat) (r : Parcel) (h : t.rows[i]? = some r) :
    ∃ u, (ParcelStore.setStatus t n s).2.rows[i]? = some u
      ∧ u.number = r.number ∧ u.client = r.client ∧ u.address = r.address
      ∧ u.createdAt = r.createdAt ∧ (r.number ≠ n → u = r)
      ∧ (ParcelStore.setStatus t n s).2.nextId = t.nextId := by
  have hrows : (ParcelStore.setStatus t n s).2.rows =
      t.rows.map (fun x => if x.number == n then { x with status := s } else x) := rfl
  refine ⟨if r.number == n then { r with status := s } else r, ?_, ?_, ?_, ?_, ?_, ?_, rfl⟩
  · rw [hrows, List.getElem?_map, h]
    rfl
  · by_cases hc : (r.number == n) = true <;> simp [hc]
  · by_cases hc : (r.number == n) = true <;> simp [hc]
  · by_cases hc : (r.number == n) = true <;> simp [hc]
  · by_cases hc : (r.number == n) = true <;> simp [hc]
  · intro hne
    simp [hne]

theorem setStatus_frame_witness :
    ∃ u, (ParcelStore.setStatus ⟨[⟨1, 7, "registered", "a", "d"⟩], 2⟩ 5 "sent").2.rows[0]?
        = some u
      ∧ u.number = (1 : Int) ∧ u.client = (7 : Int) ∧ u.address = "a"
      ∧ u.createdAt = "d" ∧ ((1 : Int) ≠ 5 → u = ⟨1, 7, "registered", "a", "d"⟩)
      ∧ (ParcelStore.setStatus ⟨[⟨1, 7, "registered", "a", "d"⟩], 2⟩ 5 "sent").2.nextId
        = (2 : Int) :=
  setStatus_frame ⟨[⟨1, 7, "registered", "a", "d"⟩], 2⟩ 5 "sent" 0
    ⟨1, 7, "registered", "a", "d"⟩ rfl
